import Mathlib

/-!
Verification of the chirpy HTTP backend (`src/main.go`).

A shallow embedding of the handlers and helpers of `src/main.go`.
Go strings are modelled as `List Char` (`GoStr`); `len` on the ASCII
fragment exercised by the spec coincides with the character count.
Handlers become pure functions from their inputs (decoded request
parts, the database contents, the current time) to a status code and
the resulting state; the database tables are association lists.

Code of this repository that lives outside `src/` (the
`internal/auth` and `internal/database` packages) is modelled from
the spec, as marked on each such definition.
-/

namespace Chirpy

/-- Go `string`, modelled as a list of characters. -/
abbrev GoStr := List Char

/-- Go `uuid.UUID`, modelled as an opaque identifier; `0` is the zero value. -/
abbrev UUID := Nat

/-- The zero `uuid.UUID` (`var nullID uuid.UUID` in `createChirpHandler`). -/
def nullID : UUID := 0

/-- ASCII whitespace, as in Go `unicode.IsSpace` restricted to ASCII
(the fragment exercised by this system). -/
def isSpace (c : Char) : Bool :=
  c = ' ' || c = '\t' || c = '\n' || c = '\x0B' || c = '\x0C' || c = '\r'

/-- Go `strings.Split` with a one-character separator. -/
def splitChar (sep : Char) : GoStr → List GoStr
  | [] => [[]]
  | c :: rest =>
    match splitChar sep rest with
    | [] => if c = sep then [[], []] else [[c]]
    | h :: t => if c = sep then [] :: h :: t else (c :: h) :: t

/-- Accumulator worker for `fields`: `cur` holds the current word, reversed. -/
def fieldsAux (cur : GoStr) : GoStr → List GoStr
  | [] => if cur = [] then [] else [cur.reverse]
  | c :: rest =>
    if isSpace c then
      if cur = [] then fieldsAux [] rest
      else cur.reverse :: fieldsAux [] rest
    else fieldsAux (c :: cur) rest

/-- Go `strings.Fields`: split around runs of whitespace, no empty words. -/
def fields (s : GoStr) : List GoStr := fieldsAux [] s

/-- Go `strings.ToLower` on the ASCII fragment. -/
def toLowerStr (s : GoStr) : GoStr := s.map Char.toLower

/-- Drop trailing whitespace (right half of Go `strings.TrimSpace`). -/
def rstrip (s : GoStr) : GoStr := (s.reverse.dropWhile isSpace).reverse

/-- Go `strings.TrimSpace`. -/
def trimSpace (s : GoStr) : GoStr := rstrip (s.dropWhile isSpace)

/-- The fixed four-character mask `"****"` of `simpleCensor`. -/
def mask : GoStr := "****".data

/-- Function `simpleCensor` from `src/main.go`: split the body into fields, mask
each word whose lowercase form is a banned word, append each word plus
a space to the accumulator, and trim the result. -/
def simpleCensor (input : GoStr) (badWords : List GoStr) : GoStr :=
  trimSpace ((fields input).foldl
    (fun result w => result ++ ((if toLowerStr w ∈ badWords then mask else w) ++ [' '])) [])

/-- The banned set of `validateChirp` in `src/main.go`. -/
def bannedWords : List GoStr := ["kerfuffle".data, "sharbert".data, "fornax".data]

/-- Function `validateChirp` from `src/main.go`: reject bodies longer than 140,
otherwise censor. -/
def validateChirp (body : GoStr) : Bool × GoStr :=
  if body.length > 140 then (false, [])
  else (true, simpleCensor body bannedWords)

/-- Join words with single spaces; the spec's words for the output shape
of the moderation filter (`§4.5`: "rejoins tokens with single spaces"). -/
def joinSpace : List GoStr → GoStr
  | [] => []
  | [w] => w
  | w :: x :: ws => w ++ ' ' :: joinSpace (x :: ws)

/-- Each word followed by one space; the raw shape `simpleCensor`'s loop builds. -/
def spaceTrail : List GoStr → GoStr
  | [] => []
  | w :: ws => w ++ ' ' :: spaceTrail ws

/-- The moderation filter as the spec words it (`§4.5`): tokenize on
whitespace, mask any token whose case-insensitive form is banned,
rejoin with single spaces. Stated only to compare with `simpleCensor`. -/
def censorSpec (input : GoStr) (badWords : List GoStr) : GoStr :=
  joinSpace ((fields input).map (fun w => if toLowerStr w ∈ badWords then mask else w))

/-- A word produced by `fields`: non-empty and whitespace-free. -/
def goodWord (w : GoStr) : Prop := w ≠ [] ∧ ∀ c ∈ w, isSpace c = false

/-- A decoded access token. Modelled from the spec: `§4.2` — a signed
assertion of subject, issued-at and expiry; `sig` records the secret
the token was signed with, so signature verification is comparison
with the verifier's secret. -/
structure JWT where
  sub : UUID
  iat : Nat
  exp : Nat
  sig : GoStr
deriving DecidableEq, Repr

/-- The failure causes of the authorization guard, distinguishable
internally (spec `§4.4`). -/
inductive AuthError where
  | missingHeader
  | malformed
  | badSignature
  | expired
deriving DecidableEq, Repr

/-- Modelled from the spec: `internal/auth.MakeJWT` (`§4.2 Issue`) —
embeds subject, issuedAt = now and expiresAt = now + ttl, signed with
the server secret. -/
def makeJWT (userID : UUID) (secret : GoStr) (ttl : Nat) (now : Nat) : JWT :=
  { sub := userID, iat := now, exp := now + ttl, sig := secret }

/-- Modelled from the spec: `internal/auth.ValidateJWT` (`§4.2
Validate`) — decode the compact serialization (the cryptographic
decoding is the parameter `decode`), reject a malformed token, a wrong
signature, or an expired token; return the embedded subject. -/
def validateJWT (decode : GoStr → Option JWT) (token secret : GoStr) (now : Nat) :
    Except AuthError UUID :=
  match decode token with
  | none => .error .malformed
  | some jwt =>
    if jwt.sig ≠ secret then .error .badSignature
    else if jwt.exp < now then .error .expired
    else .ok jwt.sub

/-- Modelled from the spec: `internal/auth.GetBearerToken` (`§4.4
ExtractBearer`) — read the Authorization header, require the exact
`Bearer <token>` shape. -/
def getBearerToken (authHeader : Option GoStr) : Except AuthError GoStr :=
  match authHeader with
  | none => .error .missingHeader
  | some h =>
    if h.take 7 = "Bearer ".data then .ok (h.drop 7)
    else .error .malformed

/-- A row of the `refresh_tokens` table (`database.RefreshToken`,
record shape from spec `§6`). -/
structure RefreshTokenRec where
  token : GoStr
  userID : UUID
  expiresAt : Nat
  revokedAt : Option Nat
deriving DecidableEq, Repr

/-- The zero value `var nullToken database.RefreshToken` compared
against in `refreshHandler`. -/
def nullToken : RefreshTokenRec := { token := [], userID := 0, expiresAt := 0, revokedAt := none }

/-- First record holding the given opaque token. -/
def lookupToken (db : List RefreshTokenRec) (t : GoStr) : Option RefreshTokenRec :=
  match db with
  | [] => none
  | r :: rest => if r.token = t then some r else lookupToken rest t

/-- Modelled from the spec: `database.GetUserFromRefreshToken`
(`§4.3 Lookup`) — resolve an opaque token to its stored record, or a
not-found failure. -/
def getUserFromRefreshToken (db : List RefreshTokenRec) (t : GoStr) :
    Except Unit RefreshTokenRec :=
  match lookupToken db t with
  | some r => .ok r
  | none => .error ()

/-- Modelled from the spec: `database.RevokeRefreshToken` (`§4.3
Revoke`) — set `revokedAt = now` on the record holding the token. -/
def revokeRefreshToken (db : List RefreshTokenRec) (t : GoStr) (now : Nat) :
    List RefreshTokenRec :=
  db.map (fun r => if r.token = t then { r with revokedAt := some now } else r)

/-- A row of the `chirps` table (`database.Chirp`). -/
structure Chirp where
  id : UUID
  body : GoStr
  userID : UUID
deriving DecidableEq, Repr

/-- The zero value `var nullChirp database.Chirp` compared against in
`deleteChirpFromID`. -/
def nullChirp : Chirp := { id := 0, body := [], userID := 0 }

/-- First chirp with the given identifier. -/
def lookupChirp (chirps : List Chirp) (cid : UUID) : Option Chirp :=
  match chirps with
  | [] => none
  | c :: rest => if c.id = cid then some c else lookupChirp rest cid

/-- Modelled from the spec: `database.GetIndividualChirp` — find a
chirp by id, or a not-found failure. -/
def getIndividualChirp (chirps : List Chirp) (cid : UUID) : Except Unit Chirp :=
  match lookupChirp chirps cid with
  | some c => .ok c
  | none => .error ()

/-- Modelled from the spec: `database.DeleteChirpByID` — remove the
chirps with the given id. -/
def deleteChirpByID : List Chirp → UUID → List Chirp
  | [], _ => []
  | c :: rest, cid =>
    if c.id = cid then deleteChirpByID rest cid else c :: deleteChirpByID rest cid

/-- A row of the `users` table (`database.User`), the fields this
development needs. -/
structure User where
  id : UUID
  email : GoStr
  hashedPassword : GoStr
deriving DecidableEq, Repr

/-- First user with the given email (modelled from the spec:
`database.GetUserByEmail`). -/
def lookupUserByEmail (users : List User) (email : GoStr) : Option User :=
  match users with
  | [] => none
  | u :: rest => if u.email = email then some u else lookupUserByEmail rest email

/-- Structure `database.CreateChirpParams`: the decoded chirp-creation request
body — the client may supply both fields. -/
structure CreateChirpParams where
  body : GoStr
  userID : UUID
deriving DecidableEq, Repr

/-- Handler `resetHandler` from `src/main.go`: forbidden unless the platform
is exactly `"dev"`; otherwise zero the hit counter and bulk-delete the
users (the `DeleteUsers` query is modelled from spec `§6`). Returns
(status, fileserverHits, users). -/
def resetHandler (platform : GoStr) (fileserverHits : Nat) (users : List User) :
    Nat × Nat × List User :=
  if platform ≠ "dev".data then (403, fileserverHits, users)
  else (200, 0, [])

/-- Handler `createChirpHandler` from `src/main.go`: bearer token, three-segment
shape check, decode the body, validate the JWT, reject the zero-value
subject, overwrite the client-supplied user id with the token subject,
validate and censor the body, persist. Returns (status, chirps). -/
def createChirpHandler (chirps : List Chirp) (decode : GoStr → Option JWT)
    (secret : GoStr) (now : Nat) (authHeader : Option GoStr)
    (bodyParams : Option CreateChirpParams) (newId : UUID) : Nat × List Chirp :=
  match getBearerToken authHeader with
  | .error _ => (401, chirps)
  | .ok token =>
    if (splitChar '.' token).length ≠ 3 then (401, chirps)
    else
      match bodyParams with
      | none => (500, chirps)
      | some params =>
        match validateJWT decode token secret now with
        | .error _ => (401, chirps)
        | .ok userID =>
          if userID = nullID then (401, chirps)
          else
            match validateChirp { params with userID := userID }.body with
            | (ok, cleanBody) =>
              if ok = false then (400, chirps)
              else (201, chirps ++ [{ id := newId, body := cleanBody, userID := userID }])

/-- Handler `refreshHandler` from `src/main.go`: bearer token (failure answers
500 here), look the refresh token up, answer 401 if `revokedAt` is
set, 404 on the zero-value record, otherwise mint a new access token
with ttl 3600; the handler never writes the store. Returns
(status, issued access token, refresh-token store). -/
def refreshHandler (db : List RefreshTokenRec) (secret : GoStr) (now : Nat)
    (authHeader : Option GoStr) : Nat × Option JWT × List RefreshTokenRec :=
  match getBearerToken authHeader with
  | .error _ => (500, none, db)
  | .ok refreshToken =>
    match getUserFromRefreshToken db refreshToken with
    | .error _ => (500, none, db)
    | .ok dbToken =>
      if dbToken.revokedAt ≠ none then (401, none, db)
      else if dbToken = nullToken then (404, none, db)
      else (200, some (makeJWT dbToken.userID secret 3600 now), db)

/-- Handler `revokeUpdateHandler` from `src/main.go`: bearer token (failure
answers 500), then revoke the record and answer 204. Returns
(status, refresh-token store). -/
def revokeUpdateHandler (db : List RefreshTokenRec) (now : Nat)
    (authHeader : Option GoStr) : Nat × List RefreshTokenRec :=
  match getBearerToken authHeader with
  | .error _ => (500, db)
  | .ok refreshToken => (204, revokeRefreshToken db refreshToken now)

/-- Handler `deleteChirpFromID` from `src/main.go`: parse the path id, bearer
token, three-segment shape check, validate the JWT (failure answers
500 in this handler), fetch the chirp, 404 on the zero-value record,
403 when the authenticated user is not the owner, else delete and
answer 204. Returns (status, chirps). -/
def deleteChirpFromID (chirps : List Chirp) (decode : GoStr → Option JWT)
    (secret : GoStr) (now : Nat) (chirpIdOpt : Option UUID)
    (authHeader : Option GoStr) : Nat × List Chirp :=
  match chirpIdOpt with
  | none => (400, chirps)
  | some newChirpID =>
    match getBearerToken authHeader with
    | .error _ => (401, chirps)
    | .ok token =>
      if (splitChar '.' token).length ≠ 3 then (401, chirps)
      else
        match validateJWT decode token secret now with
        | .error _ => (500, chirps)
        | .ok userID =>
          match getIndividualChirp chirps newChirpID with
          | .error _ => (500, chirps)
          | .ok chirp =>
            if chirp = nullChirp then (404, chirps)
            else if chirp.userID ≠ userID then (403, chirps)
            else (204, deleteChirpByID chirps newChirpID)

/-- Structure `database.UpdateUserPasswordParams` carried by `updateUserHandler`. -/
structure UpdateUserParams where
  password : GoStr
  email : GoStr
deriving DecidableEq, Repr

/-- Handler `updateUserHandler` from `src/main.go`: bearer token, three-segment
shape check, validate the JWT, decode the body, hash the new password
(the hasher is the parameter `hash`, spec `§4.1`), update the record of
the authenticated user. Returns (status, users). -/
def updateUserHandler (users : List User) (decode : GoStr → Option JWT)
    (hash : GoStr → GoStr) (secret : GoStr) (now : Nat)
    (authHeader : Option GoStr) (bodyParams : Option UpdateUserParams) :
    Nat × List User :=
  match getBearerToken authHeader with
  | .error _ => (401, users)
  | .ok token =>
    if (splitChar '.' token).length ≠ 3 then (401, users)
    else
      match validateJWT decode token secret now with
      | .error _ => (401, users)
      | .ok userID =>
        match bodyParams with
        | none => (500, users)
        | some params =>
          (200, users.map (fun u =>
            if u.id = userID then
              { u with email := params.email, hashedPassword := hash params.password }
            else u))

/-- Handler `loginUserHandler` from `src/main.go`, the token-minting core: find
the user by email, check the password (the checker is the parameter
`checkHash`, spec `§4.1 Verify`), mint an access token with ttl 3600
and persist a fresh refresh token (`§4.3 Create`; its opaque value and
expiry come from the caller, standing for the random generator and the
configured refresh lifetime). Returns
(status, issued access token, refresh-token store). -/
def loginUserHandler (users : List User) (rdb : List RefreshTokenRec)
    (checkHash : GoStr → GoStr → Bool) (email password secret : GoStr)
    (now : Nat) (newRefreshToken : GoStr) (refreshExpiresAt : Nat) :
    Nat × Option JWT × List RefreshTokenRec :=
  match lookupUserByEmail users email with
  | none => (500, none, rdb)
  | some user =>
    if checkHash user.hashedPassword password = false then (401, none, rdb)
    else
      (200, some (makeJWT user.id secret 3600 now),
        rdb ++ [{ token := newRefreshToken, userID := user.id,
                  expiresAt := refreshExpiresAt, revokedAt := none }])

/-! Concrete fixtures for witnesses and counterexamples. -/

/-- A sample server secret. -/
def sampleSecret : GoStr := "s".data

/-- A decoder holding one well-formed token `"a.b.c"`: subject 7,
expiry 10, signed with `sampleSecret`. -/
def sampleDecode : GoStr → Option JWT :=
  fun s => if s = "a.b.c".data
    then some { sub := 7, iat := 0, exp := 10, sig := sampleSecret } else none

/-- A decoder whose token `"a.b.c"` carries the zero-value subject. -/
def nullSubDecode : GoStr → Option JWT :=
  fun s => if s = "a.b.c".data
    then some { sub := 0, iat := 0, exp := 10, sig := sampleSecret } else none

/-- A decoder whose token `"a.b.c"` identifies a different user, 8. -/
def otherUserDecode : GoStr → Option JWT :=
  fun s => if s = "a.b.c".data
    then some { sub := 8, iat := 0, exp := 10, sig := sampleSecret } else none

/-- One persisted chirp, owned by user 7. -/
def sampleChirps : List Chirp := [{ id := 42, body := "hello".data, userID := 7 }]

/-- An Authorization header carrying the well-formed token `"a.b.c"`. -/
def sampleAuthHeader : Option GoStr := some ("Bearer a.b.c".data)

/-- An unrevoked refresh-token record whose expiry (10) is long past at
time 1000. -/
def expiredRec : RefreshTokenRec :=
  { token := "r".data, userID := 7, expiresAt := 10, revokedAt := none }

/-- An Authorization header carrying the opaque refresh token `"r"`. -/
def refreshHeader : Option GoStr := some ("Bearer r".data)

/-- A refresh-token record already revoked at time 5. -/
def revokedRec : RefreshTokenRec :=
  { token := "q".data, userID := 3, expiresAt := 999, revokedAt := some 5 }

/-! Helper lemmas for the moderation filter. -/

theorem foldl_mask_eq_spaceTrail (f : GoStr → GoStr) :
    ∀ (ws : List GoStr) (a : GoStr),
      ws.foldl (fun result w => result ++ (f w ++ [' '])) a = a ++ spaceTrail (ws.map f) := by
  intro ws
  induction ws with
  | nil => intro a; simp [spaceTrail]
  | cons w ws ih =>
    intro a
    simp only [List.foldl_cons, List.map_cons, spaceTrail]
    rw [ih]
    simp [List.append_assoc]

theorem spaceTrail_eq_joinSpace : ∀ ws : List GoStr,
    spaceTrail ws = if ws = [] then [] else joinSpace ws ++ [' '] := by
  intro ws
  induction ws with
  | nil => rfl
  | cons w ws ih =>
    cases ws with
    | nil => simp [spaceTrail, joinSpace]
    | cons x xs =>
      simp only [spaceTrail, joinSpace, List.cons_ne_nil, if_neg, if_false,
        reduceCtorEq, ite_false] at *
      rw [ih]
      simp [List.append_assoc]

theorem dropWhile_append_space (x : GoStr) :
    (x ++ [' ']).dropWhile isSpace
      = if x.dropWhile isSpace = [] then [] else x.dropWhile isSpace ++ [' '] := by
  induction x with
  | nil => simp [List.dropWhile, isSpace]
  | cons c x ih =>
    by_cases hc : isSpace c = true
    · simp [List.dropWhile_cons, hc, ih]
    · simp [List.dropWhile_cons, hc]

theorem rstrip_append_space (x : GoStr) : rstrip (x ++ [' ']) = rstrip x := by
  simp [rstrip, List.reverse_append, List.dropWhile_cons, isSpace]

theorem trimSpace_append_space (x : GoStr) : trimSpace (x ++ [' ']) = trimSpace x := by
  unfold trimSpace
  rw [dropWhile_append_space]
  by_cases h : x.dropWhile isSpace = []
  · simp [h, rstrip]
  · simp [h, rstrip_append_space]

theorem joinSpace_append_singleton : ∀ M : List GoStr, M ≠ [] → ∀ w : GoStr,
    joinSpace (M ++ [w]) = joinSpace M ++ ' ' :: w := by
  intro M
  induction M with
  | nil => intro h; exact absurd rfl h
  | cons m M ih =>
    intro _ w
    cases M with
    | nil => simp [joinSpace]
    | cons x xs =>
      have h2 := ih (List.cons_ne_nil x xs) w
      simp only [List.cons_append] at h2 ⊢
      simp [joinSpace, h2, List.append_assoc]

theorem reverse_joinSpace : ∀ ws : List GoStr,
    (joinSpace ws).reverse = joinSpace ((ws.map List.reverse).reverse) := by
  intro ws
  induction ws with
  | nil => rfl
  | cons w ws ih =>
    cases ws with
    | nil => simp [joinSpace]
    | cons x xs =>
      have hne : (((x :: xs).map List.reverse).reverse : List GoStr) ≠ [] := by simp
      show (w ++ ' ' :: joinSpace (x :: xs)).reverse
          = joinSpace (((w :: x :: xs).map List.reverse).reverse)
      rw [List.reverse_append, List.reverse_cons, ih, List.append_assoc,
        List.singleton_append, ← joinSpace_append_singleton _ hne w.reverse]
      simp

theorem goodWord_reverse {w : GoStr} (h : goodWord w) : goodWord w.reverse := by
  obtain ⟨hne, hns⟩ := h
  refine ⟨by simpa using hne, ?_⟩
  intro c hc
  exact hns c (List.mem_reverse.mp hc)

theorem dropWhile_joinSpace (ws : List GoStr) (h : ∀ w ∈ ws, goodWord w) :
    (joinSpace ws).dropWhile isSpace = joinSpace ws := by
  cases ws with
  | nil => rfl
  | cons w ws =>
    obtain ⟨hne, hns⟩ := h w (List.mem_cons_self w ws)
    cases hw : w with
    | nil => exact absurd hw hne
    | cons c w' =>
      have hc : isSpace c = false := hns c (by rw [hw]; exact List.mem_cons_self c w')
      cases ws with
      | nil => simp [joinSpace, hw, List.dropWhile_cons, hc]
      | cons x xs => simp [joinSpace, hw, List.cons_append, List.dropWhile_cons, hc]

theorem trimSpace_joinSpace (ws : List GoStr) (h : ∀ w ∈ ws, goodWord w) :
    trimSpace (joinSpace ws) = joinSpace ws := by
  unfold trimSpace
  rw [dropWhile_joinSpace ws h]
  unfold rstrip
  rw [reverse_joinSpace ws]
  rw [dropWhile_joinSpace]
  · rw [← reverse_joinSpace ws, List.reverse_reverse]
  · intro w hw
    rw [List.mem_reverse, List.mem_map] at hw
    obtain ⟨v, hv, rfl⟩ := hw
    exact goodWord_reverse (h v hv)

theorem fieldsAux_goodWord : ∀ (s : GoStr) (cur : GoStr),
    (∀ c ∈ cur, isSpace c = false) →
    ∀ w ∈ fieldsAux cur s, goodWord w := by
  intro s
  induction s with
  | nil =>
    intro cur hcur w hw
    unfold fieldsAux at hw
    by_cases h : cur = []
    · simp [h] at hw
    · rw [if_neg h] at hw
      simp only [List.mem_singleton] at hw
      subst hw
      exact ⟨by simpa using h, fun c hc => hcur c (List.mem_reverse.mp hc)⟩
  | cons c rest ih =>
    intro cur hcur w hw
    unfold fieldsAux at hw
    by_cases hc : isSpace c = true
    · rw [if_pos hc] at hw
      by_cases hcur0 : cur = []
      · rw [if_pos hcur0] at hw
        exact ih [] (by intro ch hch; cases hch) w hw
      · rw [if_neg hcur0] at hw
        rcases List.mem_cons.mp hw with h1 | h2
        · subst h1
          exact ⟨by simpa using hcur0, fun ch hch => hcur ch (List.mem_reverse.mp hch)⟩
        · exact ih [] (by intro ch hch; cases hch) w h2
    · rw [if_neg hc] at hw
      refine ih (c :: cur) ?_ w hw
      intro ch hch
      rcases List.mem_cons.mp hch with h1 | h2
      · subst h1; simpa using hc
      · exact hcur ch h2

theorem fields_goodWord (s : GoStr) : ∀ w ∈ fields s, goodWord w :=
  fieldsAux_goodWord s [] (by intro c hc; cases hc)

theorem mask_goodWord : goodWord mask :=
  ⟨by decide, by decide⟩

theorem simpleCensor_eq_censorSpec (input : GoStr) (badWords : List GoStr) :
    simpleCensor input badWords = censorSpec input badWords := by
  unfold simpleCensor censorSpec
  rw [foldl_mask_eq_spaceTrail (fun w => if toLowerStr w ∈ badWords then mask else w)]
  rw [List.nil_append, spaceTrail_eq_joinSpace]
  by_cases h : (fields input).map (fun w => if toLowerStr w ∈ badWords then mask else w) = []
  · rw [if_pos h, h]; rfl
  · rw [if_neg h, trimSpace_append_space, trimSpace_joinSpace]
    intro w hw
    rcases List.mem_map.mp hw with ⟨v, hv, rfl⟩
    by_cases hb : toLowerStr v ∈ badWords
    · simp only [if_pos hb]; exact mask_goodWord
    · simp only [if_neg hb]; exact fields_goodWord input v hv

/-! The claims. -/

/-- C6: chirp validation fails (ok = false, with no output body) exactly
when the original, unredacted body is longer than 140 characters — the
ceiling applies before any redaction — and bodies of length at most 140
are accepted. -/
theorem c6_length_ceiling (body : GoStr) :
    ((validateChirp body).1 = false ↔ 140 < body.length)
    ∧ (140 < body.length → validateChirp body = (false, []))
    ∧ (body.length ≤ 140 → (validateChirp body).1 = true) := by
  unfold validateChirp
  by_cases h : 140 < body.length
  · simp [h]
  · simp [h]

/-- C6 witness: a body of 141 plain characters is rejected with no
output; a body of 140 characters is accepted. -/
theorem c6_length_ceiling_witness :
    validateChirp (List.replicate 141 'a') = (false, [])
    ∧ (validateChirp (List.replicate 140 'a')).1 = true :=
  ⟨(c6_length_ceiling (List.replicate 141 'a')).2.1 (by simp),
   (c6_length_ceiling (List.replicate 140 'a')).2.2 (by simp)⟩

/-- C7: for every body, `simpleCensor` splits on whitespace, replaces
every token whose case-insensitive form is in the banned set with the
mask `"****"`, and rejoins the remaining tokens with single spaces,
collapsing whitespace runs and trimming the ends (it equals the
filter written exactly as the spec words it); the spec's example maps
as stated and the mixed-case token `"KERFUFFLE"` is redacted. -/
theorem c7_censor_matches_spec :
    (∀ input badWords, simpleCensor input badWords = censorSpec input badWords)
    ∧ simpleCensor ("This is a kerfuffle opinion I need to share.".data) bannedWords
        = "This is a **** opinion I need to share.".data
    ∧ simpleCensor ("KERFUFFLE".data) bannedWords = "****".data :=
  ⟨simpleCensor_eq_censorSpec, by decide, by decide⟩

/-! Helper lemmas for the refresh-token store. -/

theorem lookupToken_revoke (db : List RefreshTokenRec) (t : GoStr) (now : Nat) :
    lookupToken (revokeRefreshToken db t now) t
      = (lookupToken db t).map (fun r => { r with revokedAt := some now }) := by
  induction db with
  | nil => rfl
  | cons r rest ih =>
    show lookupToken ((if r.token = t then { r with revokedAt := some now } else r)
        :: revokeRefreshToken rest t now) t
      = (lookupToken (r :: rest) t).map (fun x => { x with revokedAt := some now })
    by_cases h : r.token = t
    · simp [lookupToken, h]
    · simp [lookupToken, h, ih]

theorem getIndividualChirp_ok {chirps : List Chirp} {cid : UUID} {chirp : Chirp}
    (h : getIndividualChirp chirps cid = .ok chirp) : lookupChirp chirps cid = some chirp := by
  unfold getIndividualChirp at h
  cases hl : lookupChirp chirps cid <;> rw [hl] at h
  · cases h
  · cases h; rfl

theorem refreshHandler_status_time_inv (db : List RefreshTokenRec) (secret : GoStr)
    (now now2 : Nat) (hdr : Option GoStr) :
    (refreshHandler db secret now hdr).1 = (refreshHandler db secret now2 hdr).1 := by
  unfold refreshHandler
  split
  · rfl
  · split
    · rfl
    · split
      · rfl
      · split
        · rfl
        · rfl

/-- C1: a refresh token whose record carries a set `revokedAt` fails
exchange with the revoked condition (401) and no access token is
issued; after `Revoke` is applied to a stored token, exchanging that
same token fails the same way, even though the lookup still finds the
(now revoked) record. -/
theorem c1_revoked_token_never_exchanges
    (db : List RefreshTokenRec) (secret : GoStr) (now nowR : Nat)
    (hdr : Option GoStr) (t : GoStr) (r : RefreshTokenRec)
    (hget : getBearerToken hdr = .ok t)
    (hfind : lookupToken db t = some r) :
    (r.revokedAt ≠ none → refreshHandler db secret now hdr = (401, none, db))
    ∧ refreshHandler (revokeRefreshToken db t nowR) secret now hdr
        = (401, none, revokeRefreshToken db t nowR)
    ∧ lookupToken (revokeRefreshToken db t nowR) t = some { r with revokedAt := some nowR } := by
  refine ⟨?_, ?_, ?_⟩
  · intro hrev
    simp [refreshHandler, getUserFromRefreshToken, hget, hfind, hrev]
  · simp [refreshHandler, getUserFromRefreshToken, hget, lookupToken_revoke, hfind]
  · rw [lookupToken_revoke, hfind]
    rfl

/-- C1 witness: a concrete revoked record fails exchange, and a
concrete live record fails exchange after revocation while its revoked
record is still found. -/
theorem c1_revoked_token_never_exchanges_witness :
    refreshHandler [revokedRec] sampleSecret 7 (some ("Bearer q".data))
      = (401, none, [revokedRec])
    ∧ refreshHandler (revokeRefreshToken [expiredRec] ("r".data) 5) sampleSecret 7 refreshHeader
        = (401, none, revokeRefreshToken [expiredRec] ("r".data) 5)
    ∧ lookupToken (revokeRefreshToken [expiredRec] ("r".data) 5) ("r".data)
        = some { expiredRec with revokedAt := some 5 } :=
  ⟨(c1_revoked_token_never_exchanges [revokedRec] sampleSecret 7 0
      (some ("Bearer q".data)) ("q".data) revokedRec rfl rfl).1 (by decide),
   (c1_revoked_token_never_exchanges [expiredRec] sampleSecret 7 5
      refreshHeader ("r".data) expiredRec rfl rfl).2.1,
   (c1_revoked_token_never_exchanges [expiredRec] sampleSecret 7 5
      refreshHeader ("r".data) expiredRec rfl rfl).2.2⟩

/-- C4 (divergence evidence): an unrevoked refresh-token record whose
expiry (10) is long past at time 1000 is still exchanged successfully —
the handler performs no expiry check, answers 200 and issues a fresh
access token, where the claim demands an expired-condition failure with
no token. -/
theorem c4_expired_token_still_exchanges :
    refreshHandler [expiredRec] sampleSecret 1000 refreshHeader
      = (200, some (makeJWT 7 sampleSecret 3600 1000), [expiredRec])
    ∧ expiredRec.revokedAt = none ∧ expiredRec.expiresAt < 1000 :=
  ⟨by decide, rfl, by decide⟩

/-- C8: a refresh exchange never modifies the refresh-token store;
every access token it issues has ttl 3600 (expiry = issued-at + 3600);
a token that exchanges successfully still exchanges successfully at any
later time (no rotation, no invalidation); and the access token minted
at login also has ttl 3600. -/
theorem c8_exchange_frame_and_fixed_ttl :
    (∀ (db : List RefreshTokenRec) (secret : GoStr) (now : Nat) (hdr : Option GoStr),
      (refreshHandler db secret now hdr).2.2 = db)
    ∧ (∀ (db : List RefreshTokenRec) (secret : GoStr) (now : Nat) (hdr : Option GoStr)
        (j : JWT), (refreshHandler db secret now hdr).2.1 = some j → j.exp = j.iat + 3600)
    ∧ (∀ (db : List RefreshTokenRec) (secret : GoStr) (now now2 : Nat) (hdr : Option GoStr),
        (refreshHandler db secret now hdr).1 = 200 →
        (refreshHandler db secret now2 hdr).1 = 200)
    ∧ (∀ (users : List User) (rdb : List RefreshTokenRec)
        (checkHash : GoStr → GoStr → Bool) (email password secret : GoStr)
        (now : Nat) (newTok : GoStr) (expAt : Nat) (j : JWT),
        (loginUserHandler users rdb checkHash email password secret now newTok expAt).2.1
          = some j → j.exp = j.iat + 3600) := by
  refine ⟨?_, ?_, ?_, ?_⟩
  · intro db secret now hdr
    unfold refreshHandler
    split
    · rfl
    · split
      · rfl
      · split
        · rfl
        · split
          · rfl
          · rfl
  · intro db secret now hdr j hj
    unfold refreshHandler at hj
    split at hj
    · simp at hj
    · split at hj
      · simp at hj
      · split at hj
        · simp at hj
        · split at hj
          · simp at hj
          · simp only [Option.some.injEq] at hj
            subst hj
            rfl
  · intro db secret now now2 hdr h
    exact (refreshHandler_status_time_inv db secret now2 now hdr).trans h
  · intro users rdb checkHash email password secret now newTok expAt j hj
    unfold loginUserHandler at hj
    split at hj
    · simp at hj
    · split at hj
      · simp at hj
      · simp only [Option.some.injEq] at hj
        subst hj
        rfl

/-- C8 witness: a concrete successful exchange leaves the store intact,
repeats successfully at a later time, and the issued token's lifetime
is 3600. -/
theorem c8_exchange_frame_and_fixed_ttl_witness :
    (refreshHandler [expiredRec] sampleSecret 1000 refreshHeader).2.2 = [expiredRec]
    ∧ (refreshHandler [expiredRec] sampleSecret 2000 refreshHeader).1 = 200
    ∧ (makeJWT 7 sampleSecret 3600 1000).exp = (makeJWT 7 sampleSecret 3600 1000).iat + 3600 :=
  ⟨c8_exchange_frame_and_fixed_ttl.1 [expiredRec] sampleSecret 1000 refreshHeader,
   c8_exchange_frame_and_fixed_ttl.2.2.1 [expiredRec] sampleSecret 1000 2000 refreshHeader
     (by decide),
   c8_exchange_frame_and_fixed_ttl.2.1 [expiredRec] sampleSecret 1000 refreshHeader
     (makeJWT 7 sampleSecret 3600 1000) (by decide)⟩

/-- C2: a chirp-deletion request authenticated as user `b` against a
persisted chirp owned by a different user answers 403 and leaves the
chirp store unchanged; conversely, whenever the store does change, the
authenticated subject was exactly the stored chirp's owner — the
deletion ran only on an ownership match. -/
theorem c2_delete_forbidden_for_non_owner :
    (∀ (chirps : List Chirp) (decode : GoStr → Option JWT) (secret : GoStr) (now : Nat)
      (cid : UUID) (hdr : Option GoStr) (tok : GoStr) (b : UUID) (chirp : Chirp),
      getBearerToken hdr = .ok tok →
      (splitChar '.' tok).length = 3 →
      validateJWT decode tok secret now = .ok b →
      lookupChirp chirps cid = some chirp →
      chirp ≠ nullChirp →
      chirp.userID ≠ b →
      deleteChirpFromID chirps decode secret now (some cid) hdr = (403, chirps))
    ∧ (∀ (chirps : List Chirp) (decode : GoStr → Option JWT) (secret : GoStr) (now : Nat)
      (cidOpt : Option UUID) (hdr : Option GoStr),
      (deleteChirpFromID chirps decode secret now cidOpt hdr).2 ≠ chirps →
      ∃ cid tok chirp, cidOpt = some cid ∧ getBearerToken hdr = .ok tok
        ∧ validateJWT decode tok secret now = .ok chirp.userID
        ∧ lookupChirp chirps cid = some chirp) := by
  constructor
  · intro chirps decode secret now cid hdr tok b chirp hget hsplit hjwt hfind hnull hneq
    simp [deleteChirpFromID, getIndividualChirp, hget, hsplit, hjwt, hfind, hnull, hneq]
  · intro chirps decode secret now cidOpt hdr h
    rcases heq : deleteChirpFromID chirps decode secret now cidOpt hdr with ⟨st, chirps2⟩
    rw [heq] at h
    unfold deleteChirpFromID at heq
    split at heq
    · injection heq with h1 h2; exact absurd h2.symm h
    · rename_i cid
      split at heq
      · injection heq with h1 h2; exact absurd h2.symm h
      · rename_i tok hbt
        split at heq
        · injection heq with h1 h2; exact absurd h2.symm h
        · split at heq
          · injection heq with h1 h2; exact absurd h2.symm h
          · rename_i u hv
            split at heq
            · injection heq with h1 h2; exact absurd h2.symm h
            · rename_i chirp hgi
              split at heq
              · injection heq with h1 h2; exact absurd h2.symm h
              · split at heq
                · injection heq with h1 h2; exact absurd h2.symm h
                · rename_i hown
                  refine ⟨cid, tok, chirp, rfl, hbt, ?_, getIndividualChirp_ok hgi⟩
                  rw [not_ne_iff.mp hown]
                  exact hv

/-- C2 witness: against the sample chirp owned by user 7, a deletion
authenticated as user 8 answers 403 and leaves the store unchanged. -/
theorem c2_delete_forbidden_for_non_owner_witness :
    deleteChirpFromID sampleChirps otherUserDecode sampleSecret 5 (some 42) sampleAuthHeader
      = (403, sampleChirps) :=
  c2_delete_forbidden_for_non_owner.1 sampleChirps otherUserDecode sampleSecret 5 42
    sampleAuthHeader ("a.b.c".data) 8 { id := 42, body := "hello".data, userID := 7 }
    rfl rfl rfl rfl (by decide) (by decide)

/-- C3: whenever chirp creation succeeds (201), the persisted chirp's
owning-user identifier is exactly the non-zero subject returned by JWT
validation of the presented bearer token; and the handler's outcome is
unchanged under any client-supplied user-id field — the field is
overwritten before persistence. -/
theorem c3_chirp_owner_is_token_subject :
    (∀ (chirps : List Chirp) (decode : GoStr → Option JWT) (secret : GoStr) (now : Nat)
      (hdr : Option GoStr) (bp : Option CreateChirpParams) (newId : UUID),
      (createChirpHandler chirps decode secret now hdr bp newId).1 = 201 →
      ∃ tok u clean, getBearerToken hdr = .ok tok
        ∧ validateJWT decode tok secret now = .ok u ∧ u ≠ nullID
        ∧ (createChirpHandler chirps decode secret now hdr bp newId).2
            = chirps ++ [{ id := newId, body := clean, userID := u }])
    ∧ (∀ (chirps : List Chirp) (decode : GoStr → Option JWT) (secret : GoStr) (now : Nat)
      (hdr : Option GoStr) (params : CreateChirpParams) (x newId : UUID),
      createChirpHandler chirps decode secret now hdr
          (some { params with userID := x }) newId
        = createChirpHandler chirps decode secret now hdr (some params) newId) := by
  constructor
  · intro chirps decode secret now hdr bp newId h
    rcases heq : createChirpHandler chirps decode secret now hdr bp newId with ⟨st, chirps2⟩
    rw [heq] at h
    unfold createChirpHandler at heq
    split at heq
    · injection heq with h1 h2; subst h1; simp at h
    · rename_i tok hbt
      split at heq
      · injection heq with h1 h2; subst h1; simp at h
      · split at heq
        · injection heq with h1 h2; subst h1; simp at h
        · rename_i params
          split at heq
          · injection heq with h1 h2; subst h1; simp at h
          · rename_i u hv
            split at heq
            · injection heq with h1 h2; subst h1; simp at h
            · rename_i h0
              split at heq
              rename_i p okv cleanv hvc
              split at heq
              · injection heq with h1 h2; subst h1; simp at h
              · injection heq with h1 h2
                exact ⟨tok, u, cleanv, hbt, hv, h0, h2.symm⟩
  · intro chirps decode secret now hdr params x newId
    rfl

/-- C3 witness: a concrete successful creation persists the chirp under
the token's subject (7), not the client-supplied user id (99). -/
theorem c3_chirp_owner_is_token_subject_witness :
    ∃ tok u clean, getBearerToken sampleAuthHeader = .ok tok
      ∧ validateJWT sampleDecode tok sampleSecret 5 = .ok u ∧ u ≠ nullID
      ∧ (createChirpHandler [] sampleDecode sampleSecret 5 sampleAuthHeader
          (some { body := "hi".data, userID := 99 }) 1).2
          = [] ++ [{ id := 1, body := clean, userID := u }] :=
  c3_chirp_owner_is_token_subject.1 [] sampleDecode sampleSecret 5 sampleAuthHeader
    (some { body := "hi".data, userID := 99 }) 1 (by decide)

/-- C9: a chirp-creation request whose bearer token validates but whose
embedded subject is the zero-value UUID answers 401 and persists no
chirp. -/
theorem c9_zero_subject_rejected
    (chirps : List Chirp) (decode : GoStr → Option JWT) (secret : GoStr) (now : Nat)
    (hdr : Option GoStr) (params : CreateChirpParams) (newId : UUID) (tok : GoStr)
    (h1 : getBearerToken hdr = .ok tok)
    (h2 : (splitChar '.' tok).length = 3)
    (h3 : validateJWT decode tok secret now = .ok nullID) :
    createChirpHandler chirps decode secret now hdr (some params) newId = (401, chirps) := by
  simp [createChirpHandler, h1, h2, h3]

/-- C9 witness: a token with the zero-value subject is rejected with
401 and the store stays empty. -/
theorem c9_zero_subject_rejected_witness :
    createChirpHandler [] nullSubDecode sampleSecret 5 sampleAuthHeader
      (some { body := "hi".data, userID := 9 }) 1 = (401, []) :=
  c9_zero_subject_rejected [] nullSubDecode sampleSecret 5 sampleAuthHeader
    { body := "hi".data, userID := 9 } 1 ("a.b.c".data) rfl rfl rfl

/-- C5 (divergence evidence): on the same expired (but well-formed and
bearer-presented) token, chirp deletion answers 500 Internal Server
Error — `deleteChirpFromID` maps JWT-validation failure to 500 — while
chirp creation and user update answer 401 Unauthorized as the claim
demands for all three operations. -/
theorem c5_delete_maps_token_failure_to_500 :
    deleteChirpFromID sampleChirps sampleDecode sampleSecret 1000 (some 42) sampleAuthHeader
      = (500, sampleChirps)
    ∧ createChirpHandler sampleChirps sampleDecode sampleSecret 1000 sampleAuthHeader
        (some { body := "hi".data, userID := 0 }) 43 = (401, sampleChirps)
    ∧ updateUserHandler [] sampleDecode (fun p => p) sampleSecret 1000 sampleAuthHeader
        (some { password := "p".data, email := "e".data }) = (401, []) :=
  ⟨by decide, by decide, by decide⟩

/-- C10: whenever the configured platform is not exactly `"dev"`, the
administrative reset answers 403 and leaves both the hit counter and
the users table exactly as they were. -/
theorem c10_reset_forbidden_outside_dev
    (platform : GoStr) (hits : Nat) (users : List User)
    (h : platform ≠ "dev".data) :
    resetHandler platform hits users = (403, hits, users) := by
  simp [resetHandler, h]

/-- C10 witness: with platform `"prod"`, a concrete state is untouched
and the reset answers 403. -/
theorem c10_reset_forbidden_outside_dev_witness :
    resetHandler ("prod".data) 5 [{ id := 1, email := "a".data, hashedPassword := "h".data }]
      = (403, 5, [{ id := 1, email := "a".data, hashedPassword := "h".data }]) :=
  c10_reset_forbidden_outside_dev ("prod".data) 5
    [{ id := 1, email := "a".data, hashedPassword := "h".data }] (by decide)

end Chirpy
